import Mathlib

/-!
Verification of the demo scripts of the `open_deep_research` repository
(`src/demo/comparison_demo.py`, `src/demo/evaluation_demo.py`,
`src/demo/interactive_demo.py`) against their natural-language specification.

The Python scripts are shallowly embedded:

* Python floats (durations, scores) are modelled as exact rationals `ℚ`;
  `time.time()` differences are an oracle `dur : ℕ → ℚ` giving the measured
  wall-clock duration of the i-th invocation.
* The external call `deep_researcher.ainvoke` (not part of the sampled
  source) is an oracle `behavior : ℕ → Except String ResearchResult`:
  `.ok res` models a normal return, `.error e` models a raised exception
  whose `str(e)` is `e`.
* Python dicts used as ordered key/value maps (`provider_stats`,
  `provider_performance`) are association lists in insertion order, which
  matches Python 3.7+ dict semantics.
-/

namespace DeepResearchDemo

/-- Search-API selection used by the presets (`SearchAPI.TAVILY` in
`comparison_demo._get_comparison_configs`). -/
inductive SearchAPI where
  | tavily
  | native
deriving DecidableEq, Repr

/-- The `Configuration` preset object as constructed by
`comparison_demo._get_comparison_configs` (a pydantic model in the external
`open_deep_research.configuration` module; only the keyword arguments the
demo passes are modelled). -/
structure Configuration where
  research_model : String
  final_report_model : String
  compression_model : String
  summarization_model : String
  search_api : SearchAPI
  max_researcher_iterations : Nat
  max_concurrent_research_units : Nat
deriving DecidableEq, Repr

/-- One entry of `self.comparison_configs`: `{"name": ..., "provider": ...,
"config": Configuration(...)}`. -/
structure ConfigInfo where
  name : String
  provider : String
  config : Configuration
deriving DecidableEq, Repr

/-- The dict returned by `deep_researcher.ainvoke`; the demo scripts only
ever read its optional `"final_report"` key, so only that key is modelled. -/
structure ResearchResult where
  final_report : Option String
deriving DecidableEq, Repr

/-- One element of the `results` list built by
`ModelComparisonDemo.run_comparison_research` (lines 186-210). -/
structure RunResult where
  config_name : String
  provider : String
  config : Configuration
  result : Option ResearchResult
  duration : ℚ
  success : Bool
  error : Option String
deriving DecidableEq, Repr

/-- Whether the external call of index `i` returned normally. -/
def callSucceeded (e : Except String ResearchResult) : Bool :=
  match e with
  | .ok _ => true
  | .error _ => false

/-- The body of the `for i, config_info in enumerate(...)` loop of
`run_comparison_research`: the record appended for the `i`-th configuration.
The `try` branch (lines 186-194) appends a success record; the
`except Exception as e` branch (lines 202-210) appends a failure record with
`error = str(e)`, `success = False`, `result = None`. -/
def runOne (behavior : ℕ → Except String ResearchResult) (dur : ℕ → ℚ)
    (i : ℕ) (c : ConfigInfo) : RunResult :=
  match behavior i with
  | .ok res =>
      { config_name := c.name, provider := c.provider, config := c.config,
        result := some res, duration := dur i, success := true, error := none }
  | .error e =>
      { config_name := c.name, provider := c.provider, config := c.config,
        result := none, duration := dur i, success := false, error := some e }

/-- `ModelComparisonDemo.run_comparison_research` (lines 149-216): the loop
over `enumerate(self.comparison_configs)`, appending one result record per
configuration.  The second component is the log of calls made to
`deep_researcher.ainvoke`, each carrying the topic (inside
`research_input["messages"]`) and the configuration passed via
`config.model_dump()`. -/
def runComparisonResearch (topic : String) (configs : List ConfigInfo)
    (behavior : ℕ → Except String ResearchResult) (dur : ℕ → ℚ) :
    List RunResult × List (String × Configuration) :=
  configs.enum.foldl
    (fun acc ic =>
      (acc.1 ++ [runOne behavior dur ic.1 ic.2], acc.2 ++ [(topic, ic.2.config)]))
    ([], [])

theorem foldl_append_pair {α β γ : Type} (f : α → β) (g : α → γ)
    (l : List α) (rs : List β) (cs : List γ) :
    l.foldl (fun acc x => (acc.1 ++ [f x], acc.2 ++ [g x])) (rs, cs) =
      (rs ++ l.map f, cs ++ l.map g) := by
  induction l generalizing rs cs with
  | nil => simp
  | cons x xs ih => simp [ih]

theorem enumFrom_map_snd {α : Type} (n : ℕ) (l : List α) :
    (List.enumFrom n l).map Prod.snd = l := by
  induction l generalizing n with
  | nil => rfl
  | cons x xs ih => simp [List.enumFrom, ih]

/-- The loop of `run_comparison_research` written as two maps: one result
record and one external call per configuration, in catalog order. -/
theorem runComparisonResearch_eq (topic : String) (configs : List ConfigInfo)
    (behavior : ℕ → Except String ResearchResult) (dur : ℕ → ℚ) :
    runComparisonResearch topic configs behavior dur =
      (configs.enum.map (fun ic => runOne behavior dur ic.1 ic.2),
       configs.map (fun c => (topic, c.config))) := by
  unfold runComparisonResearch
  rw [foldl_append_pair (fun ic => runOne behavior dur ic.1 ic.2)
    (fun ic => (topic, ic.2.config)) configs.enum [] []]
  simp only [List.nil_append]
  congr 1
  rw [show (fun ic : ℕ × ConfigInfo => (topic, ic.2.config)) =
        ((fun c : ConfigInfo => (topic, c.config)) ∘ Prod.snd) from rfl,
    ← List.map_map, List.enum, enumFrom_map_snd]

/-- The `"final_report"` of a run result, when present: models the Python
test `result["result"] and "final_report" in result["result"]` (an absent or
empty result dict and a dict without the key both yield nothing). -/
def finalReportOf (r : RunResult) : Option String :=
  match r.result with
  | some res => res.final_report
  | none => none

/-- Whether `result["result"] and "final_report" in result["result"]` holds. -/
def hasFinalReport (r : RunResult) : Bool :=
  (finalReportOf r).isSome

/-- `len(x["result"]["final_report"])`, used only where the key is present;
0 otherwise. -/
def reportLen (r : RunResult) : ℕ :=
  match finalReportOf r with
  | some s => s.length
  | none => 0

/-- Python `min(l, key=f)` for nonempty `l`: iterates keeping the current
best and replaces it only on a strictly smaller key, so it returns the first
element attaining the minimum; `none` on the empty list. -/
def pyMin {α : Type} (f : α → ℚ) : List α → Option α
  | [] => none
  | x :: xs => some (xs.foldl (fun b a => if f a < f b then a else b) x)

/-- Python `max(l, key=f)` for nonempty `l`: replaces the current best only
on a strictly larger key, so it returns the first element attaining the
maximum; `none` on the empty list. -/
def pyMax {α : Type} (f : α → ℚ) : List α → Option α
  | [] => none
  | x :: xs => some (xs.foldl (fun b a => if f b < f a then a else b) x)

/-- The per-provider accumulator of `analyze_results` (line 250):
`{"count": 0, "total_duration": 0, "reports": []}`. -/
structure PStats where
  count : ℕ
  total_duration : ℚ
  reports : List ℕ
deriving DecidableEq, Repr

def emptyStats : PStats := { count := 0, total_duration := 0, reports := [] }

/-- Lines 252-256 of `analyze_results`: bump the provider's counters with one
successful result; the report length is recorded only when the result dict
has a `"final_report"` key. -/
def addStats (s : PStats) (r : RunResult) : PStats :=
  { count := s.count + 1,
    total_duration := s.total_duration + r.duration,
    reports := s.reports ++ (match finalReportOf r with
      | some rep => [rep.length]
      | none => []) }

/-- One step of the `for result in successful_results` loop building
`provider_stats`: a Python dict in insertion order, as an association list.
A missing key is initialised to `emptyStats` and then bumped. -/
def bump (d : List (String × PStats)) (r : RunResult) : List (String × PStats) :=
  match d with
  | [] => [(r.provider, addStats emptyStats r)]
  | (p, s) :: rest =>
      if p = r.provider then (p, addStats s r) :: rest
      else (p, s) :: bump rest r

/-- One value of `analysis["provider_performance"]` (lines 258-263). -/
structure ProviderPerf where
  average_duration : ℚ
  average_report_length : ℚ
  success_rate : ℚ
deriving DecidableEq, Repr

/-- Lines 259-263: the record stored in `provider_performance[provider]`.
`success_rate` divides by the number of results (successful or not) whose
provider matches. -/
def perfOf (results : List RunResult) (p : String) (s : PStats) : ProviderPerf :=
  { average_duration := s.total_duration / (s.count : ℚ),
    average_report_length :=
      if s.reports = [] then 0
      else ((s.reports.map (fun n => (n : ℚ))).sum) / (s.reports.length : ℚ),
    success_rate :=
      (s.count : ℚ) / (((results.filter (fun r => r.provider = p)).length : ℚ)) }

/-- The analysis dict built by `ModelComparisonDemo.analyze_results`
(lines 218-265). -/
structure Analysis where
  total_configs : ℕ
  successful_configs : ℕ
  failed_configs : ℕ
  average_duration : ℚ
  fastest_config : Option RunResult
  slowest_config : Option RunResult
  longest_report : Option RunResult
  shortest_report : Option RunResult
  provider_performance : List (String × ProviderPerf)
deriving DecidableEq, Repr

/-- `ModelComparisonDemo.analyze_results` (lines 218-265).  The
`fastest/slowest/longest/shortest` fields start as `None` and are only set
under `if successful_results:`, which coincides with `pyMin`/`pyMax`
returning `none` on the empty list; `provider_performance` starts as `{}`
and is filled only under the same guard. -/
def analyzeResults (results : List RunResult) : Analysis :=
  let successes := results.filter (fun r => r.success)
  let withReports := successes.filter (fun r => hasFinalReport r)
  { total_configs := results.length,
    successful_configs := successes.length,
    failed_configs := (results.filter (fun r => !r.success)).length,
    average_duration :=
      (successes.map (fun r => r.duration)).sum / ((max 1 successes.length : ℕ) : ℚ),
    fastest_config := pyMin (fun r => r.duration) successes,
    slowest_config := pyMax (fun r => r.duration) successes,
    longest_report := pyMax (fun r => (reportLen r : ℚ)) withReports,
    shortest_report := pyMin (fun r => (reportLen r : ℚ)) withReports,
    provider_performance :=
      if successes.isEmpty then []
      else (successes.foldl bump []).map (fun ps => (ps.1, perfOf results ps.1 ps.2)) }

theorem pyMinAux_mem {α : Type} (f : α → ℚ) (xs : List α) (x : α) :
    xs.foldl (fun b a => if f a < f b then a else b) x ∈ x :: xs := by
  induction xs generalizing x with
  | nil => simp
  | cons y ys ih =>
    simp only [List.foldl_cons]
    have h := ih (if f y < f x then y else x)
    by_cases hc : f y < f x
    · simp only [if_pos hc] at h ⊢
      exact List.mem_cons_of_mem x h
    · simp only [if_neg hc] at h ⊢
      rcases List.mem_cons.mp h with h1 | h1
      · simp [h1]
      · exact List.mem_cons_of_mem _ (List.mem_cons_of_mem _ h1)

theorem pyMinAux_le {α : Type} (f : α → ℚ) (xs : List α) (x : α) :
    ∀ y ∈ x :: xs, f (xs.foldl (fun b a => if f a < f b then a else b) x) ≤ f y := by
  induction xs generalizing x with
  | nil => simp
  | cons z zs ih =>
    intro y hy
    simp only [List.foldl_cons]
    have hx : f (if f z < f x then z else x) ≤ f x := by
      split
      · exact le_of_lt (by assumption)
      · exact le_refl _
    have hz : f (if f z < f x then z else x) ≤ f z := by
      split
      · exact le_refl _
      · exact not_lt.mp (by assumption)
    have ihead := ih (if f z < f x then z else x) (if f z < f x then z else x)
      (List.mem_cons_self _ _)
    rcases List.mem_cons.mp hy with rfl | hy1
    · exact le_trans ihead hx
    rcases List.mem_cons.mp hy1 with rfl | hy2
    · exact le_trans ihead hz
    · exact ih (if f z < f x then z else x) y (List.mem_cons.mpr (Or.inr hy2))

theorem pyMaxAux_mem {α : Type} (f : α → ℚ) (xs : List α) (x : α) :
    xs.foldl (fun b a => if f b < f a then a else b) x ∈ x :: xs := by
  induction xs generalizing x with
  | nil => simp
  | cons y ys ih =>
    simp only [List.foldl_cons]
    have h := ih (if f x < f y then y else x)
    by_cases hc : f x < f y
    · simp only [if_pos hc] at h ⊢
      exact List.mem_cons_of_mem x h
    · simp only [if_neg hc] at h ⊢
      rcases List.mem_cons.mp h with h1 | h1
      · simp [h1]
      · exact List.mem_cons_of_mem _ (List.mem_cons_of_mem _ h1)

theorem pyMaxAux_ge {α : Type} (f : α → ℚ) (xs : List α) (x : α) :
    ∀ y ∈ x :: xs, f y ≤ f (xs.foldl (fun b a => if f b < f a then a else b) x) := by
  induction xs generalizing x with
  | nil => simp
  | cons z zs ih =>
    intro y hy
    simp only [List.foldl_cons]
    have hx : f x ≤ f (if f x < f z then z else x) := by
      split
      · exact le_of_lt (by assumption)
      · exact le_refl _
    have hz : f z ≤ f (if f x < f z then z else x) := by
      split
      · exact le_refl _
      · exact not_lt.mp (by assumption)
    have ihead := ih (if f x < f z then z else x) (if f x < f z then z else x)
      (List.mem_cons_self _ _)
    rcases List.mem_cons.mp hy with rfl | hy1
    · exact le_trans hx ihead
    rcases List.mem_cons.mp hy1 with rfl | hy2
    · exact le_trans hz ihead
    · exact ih (if f x < f z then z else x) y (List.mem_cons.mpr (Or.inr hy2))

theorem pyMin_spec {α : Type} (f : α → ℚ) (l : List α) (x : α)
    (h : pyMin f l = some x) : x ∈ l ∧ ∀ y ∈ l, f x ≤ f y := by
  cases l with
  | nil => simp [pyMin] at h
  | cons a as =>
    simp only [pyMin, Option.some.injEq] at h
    subst h
    exact ⟨pyMinAux_mem f as a, pyMinAux_le f as a⟩

theorem pyMax_spec {α : Type} (f : α → ℚ) (l : List α) (x : α)
    (h : pyMax f l = some x) : x ∈ l ∧ ∀ y ∈ l, f y ≤ f x := by
  cases l with
  | nil => simp [pyMax] at h
  | cons a as =>
    simp only [pyMax, Option.some.injEq] at h
    subst h
    exact ⟨pyMaxAux_mem f as a, pyMaxAux_ge f as a⟩

theorem pyMin_isSome {α : Type} (f : α → ℚ) (l : List α) (h : l ≠ []) :
    ∃ x, pyMin f l = some x := by
  cases l with
  | nil => exact absurd rfl h
  | cons a as => exact ⟨_, rfl⟩

theorem pyMax_isSome {α : Type} (f : α → ℚ) (l : List α) (h : l ≠ []) :
    ∃ x, pyMax f l = some x := by
  cases l with
  | nil => exact absurd rfl h
  | cons a as => exact ⟨_, rfl⟩

theorem analyzeResults_fastest (results : List RunResult) :
    (analyzeResults results).fastest_config =
      pyMin (fun r => r.duration) (results.filter (fun r => r.success)) := rfl

theorem analyzeResults_slowest (results : List RunResult) :
    (analyzeResults results).slowest_config =
      pyMax (fun r => r.duration) (results.filter (fun r => r.success)) := rfl

theorem analyzeResults_avg (results : List RunResult) :
    (analyzeResults results).average_duration =
      ((results.filter (fun r => r.success)).map (fun r => r.duration)).sum /
        ((max 1 (results.filter (fun r => r.success)).length : ℕ) : ℚ) := rfl

theorem analyzeResults_perf (results : List RunResult) :
    (analyzeResults results).provider_performance =
      (if (results.filter (fun r => r.success)).isEmpty then []
       else ((results.filter (fun r => r.success)).foldl bump []).map
         (fun ps => (ps.1, perfOf results ps.1 ps.2))) := rfl

theorem bump_lookup (d : List (String × PStats)) (r : RunResult) (p : String) :
    (bump d r).lookup p =
      if p = r.provider then some (addStats ((d.lookup p).getD emptyStats) r)
      else d.lookup p := by
  induction d with
  | nil =>
    by_cases hp : p = r.provider
    · simp [bump, List.lookup, hp]
    · have hpq : (p == r.provider) = false := beq_eq_false_iff_ne.mpr hp
      simp [bump, List.lookup, hp, hpq]
  | cons head rest ih =>
    obtain ⟨q, s⟩ := head
    by_cases hq : q = r.provider
    · by_cases hp : p = q
      · have hpr : p = r.provider := hp.trans hq
        have e1 : (p == q) = true := beq_iff_eq.mpr hp
        have e2 : (p == r.provider) = true := beq_iff_eq.mpr hpr
        simp [bump, List.lookup, hq, e1, e2, hpr]
      · have hpr : ¬ p = r.provider := fun h => hp (h.trans hq.symm)
        have e1 : (p == q) = false := beq_eq_false_iff_ne.mpr hp
        have e2 : (p == r.provider) = false := beq_eq_false_iff_ne.mpr hpr
        simp [bump, List.lookup, hq, e1, e2, hpr]
    · by_cases hp : p = q
      · have hpr : ¬ p = r.provider := fun h => hq (hp.symm.trans h)
        have e1 : (p == q) = true := beq_iff_eq.mpr hp
        simp [bump, List.lookup, hq, e1, hpr]
      · have e1 : (p == q) = false := beq_eq_false_iff_ne.mpr hp
        simp [bump, List.lookup, hq, e1, ih]

/-- One step of building a provider's aggregate from an optional previous
aggregate. -/
def addStatsOpt (o : Option PStats) (r : RunResult) : Option PStats :=
  some (addStats (o.getD emptyStats) r)

/-- The report-length entry a successful run contributes to
`provider_stats[provider]["reports"]`. -/
def reportEntry (r : RunResult) : List ℕ :=
  match finalReportOf r with
  | some rep => [rep.length]
  | none => []

theorem providerStats_lookup_aux (l : List RunResult)
    (d : List (String × PStats)) (p : String) :
    (l.foldl bump d).lookup p =
      (l.filter (fun r => r.provider = p)).foldl addStatsOpt (d.lookup p) := by
  induction l generalizing d with
  | nil => rfl
  | cons r l ih =>
    simp only [List.foldl_cons]
    rw [ih (bump d r)]
    by_cases hp : r.provider = p
    · rw [bump_lookup, if_pos hp.symm]
      simp [List.filter_cons, hp, addStatsOpt]
    · rw [bump_lookup, if_neg (fun h => hp h.symm)]
      simp [List.filter_cons, hp]

theorem statsFold_some (fs : List RunResult) (s : PStats) :
    fs.foldl addStatsOpt (some s) =
      some { count := s.count + fs.length,
             total_duration := s.total_duration + (fs.map (fun r => r.duration)).sum,
             reports := s.reports ++ (fs.map reportEntry).flatten } := by
  induction fs generalizing s with
  | nil => simp
  | cons r fs ih =>
    simp only [List.foldl_cons]
    rw [show addStatsOpt (some s) r = some (addStats s r) from rfl, ih]
    simp only [Option.some.injEq, PStats.mk.injEq, addStats]
    refine ⟨by simp only [List.length_cons]; omega, ?_, ?_⟩
    · simp only [List.map_cons, List.sum_cons]
      ring
    · simp only [List.map_cons, List.flatten_cons, List.append_assoc, reportEntry]

theorem statsFold_none (fs : List RunResult) (h : fs ≠ []) :
    fs.foldl addStatsOpt none =
      some { count := fs.length,
             total_duration := (fs.map (fun r => r.duration)).sum,
             reports := (fs.map reportEntry).flatten } := by
  cases fs with
  | nil => exact absurd rfl h
  | cons r fs =>
    simp only [List.foldl_cons]
    rw [show addStatsOpt none r = some (addStats emptyStats r) from rfl, statsFold_some]
    simp only [Option.some.injEq, PStats.mk.injEq, addStats, emptyStats]
    refine ⟨by simp only [List.length_cons]; omega, ?_, ?_⟩
    · simp only [List.map_cons, List.sum_cons]
      ring
    · simp [List.map_cons, List.flatten_cons, reportEntry]

theorem providerStats_lookup (l : List RunResult) (p : String) :
    (l.foldl bump []).lookup p =
      (if (l.filter (fun r => r.provider = p)) = [] then none
       else some { count := (l.filter (fun r => r.provider = p)).length,
                   total_duration :=
                     ((l.filter (fun r => r.provider = p)).map (fun r => r.duration)).sum,
                   reports :=
                     ((l.filter (fun r => r.provider = p)).map reportEntry).flatten }) := by
  rw [providerStats_lookup_aux l [] p]
  by_cases h : (l.filter (fun r => r.provider = p)) = []
  · rw [h, if_pos rfl]
    rfl
  · rw [if_neg h]
    have : ([] : List (String × PStats)).lookup p = none := rfl
    rw [this, statsFold_none _ h]

theorem lookup_map_perf (g : String → PStats → ProviderPerf)
    (l : List (String × PStats)) (p : String) :
    (l.map (fun ps => (ps.1, g ps.1 ps.2))).lookup p =
      (l.lookup p).map (fun s => g p s) := by
  induction l with
  | nil => rfl
  | cons qs rest ih =>
    obtain ⟨q, s⟩ := qs
    by_cases hp : p = q
    · subst hp
      simp [List.lookup]
    · have hpq : (p == q) = false := beq_eq_false_iff_ne.mpr hp
      simp [List.lookup, hpq, ih]

/-- A sample report record of `EvaluationDemo`; `evaluate_report_quality`
reads only `"final_report"` and `"sources_count"`. -/
structure Report where
  final_report : String
  sources_count : ℤ
deriving DecidableEq, Repr

/-- The dict returned by `EvaluationDemo.evaluate_report_quality`
(lines 193-200). -/
structure EvalScores where
  comprehensiveness : ℚ
  source_diversity : ℚ
  structure_quality : ℚ
  accuracy : ℚ
  clarity : ℚ
  overall_score : ℚ
deriving DecidableEq, Repr

/-- `EvaluationDemo.evaluate_report_quality` (lines 171-200).  The three
`random.uniform` draws are oracle inputs `sDraw`, `aDraw`, `cDraw`
(`random.uniform(a, b)` returns a value in `[a, b]`); the progress spinner
and `time.sleep(2)` are presentation only and not modelled. -/
def evaluateReportQuality (report : Report) (sDraw aDraw cDraw : ℚ) : EvalScores :=
  let comprehensiveness : ℚ := min 1 ((report.final_report.length : ℚ) / 1000)
  let source_diversity : ℚ := min 1 ((report.sources_count : ℚ) / 20)
  { comprehensiveness := comprehensiveness,
    source_diversity := source_diversity,
    structure_quality := sDraw,
    accuracy := aDraw,
    clarity := cDraw,
    overall_score :=
      (comprehensiveness + source_diversity + sDraw + aDraw + cDraw) / 5 }

/-!  The Markdown file written by
`ModelComparisonDemo.save_comparison_results` (lines 367-406).  The `content`
string is built by successive `content += ...` statements; each statement is
modelled as one block, so the concatenation of the blocks is the file
content.  Number formatting (`{:.1f}` etc.) is rendered through `fmtQ` and
`toString`; the exact digits are irrelevant to the structural claims. -/

/-- Rendering of a rational in a Markdown line (stands for Python's
`f"{x:.1f}"`; the precise decimal rendering is not modelled). -/
def fmtQ (q : ℚ) : String :=
  toString q.num ++ "/" ++ toString q.den

/-- One `content += ...` block of the Markdown report. -/
inductive MdBlock where
  | header1 (s : String)
  | header2 (s : String)
  | header3 (s : String)
  | header4 (s : String)
  | textLine (s : String)
  | codeFence (s : String)
deriving DecidableEq, Repr

/-- `x[:500] + "..." if len(x) > 500 else x` (line 389). -/
def previewOf (s : String) : String :=
  if 500 < s.length then (s.take 500) ++ "..." else s

/-- `str(None)` rendering used by f-strings when `error` is `None`. -/
def errText (e : Option String) : String :=
  match e with
  | some s => s
  | none => "None"

/-- Lines 380-394: the blocks appended for one result record.  When the run
succeeded and has a final report, a length line, a `####` heading and a
fenced preview follow; when it failed, an error line follows; a successful
run without a report adds neither. -/
def mdResultBlocks (r : RunResult) : List MdBlock :=
  [MdBlock.header3 r.config_name,
   MdBlock.textLine ("- Provider: " ++ r.provider),
   MdBlock.textLine ("- Duration: " ++ fmtQ r.duration ++ " seconds"),
   MdBlock.textLine ("- Status: " ++ (if r.success then "Success" else "Failed"))]
  ++ (match r.success, finalReportOf r with
      | true, some rep =>
          [MdBlock.textLine ("- Report length: " ++ toString rep.length ++ " characters"),
           MdBlock.header4 "Report Preview:",
           MdBlock.codeFence (previewOf rep)]
      | false, _ => [MdBlock.textLine ("- Error: " ++ errText r.error)]
      | true, none => [])
  ++ [MdBlock.textLine ""]

/-- Lines 396-403: the blocks of the `## Analysis` footer. -/
def mdAnalysisBlocks (a : Analysis) : List MdBlock :=
  (match a.fastest_config with
   | some m =>
       [MdBlock.textLine ("**Fastest configuration:** " ++ m.config_name ++
         " (" ++ fmtQ m.duration ++ "s)")]
   | none => [])
  ++ (if a.provider_performance = [] then []
      else MdBlock.textLine "**Provider Performance:**" ::
        a.provider_performance.map (fun ps =>
          MdBlock.textLine ("- " ++ ps.1 ++ ": " ++ fmtQ ps.2.average_duration ++
            "s average duration")))

/-- The whole Markdown document of `save_comparison_results`
(lines 370-403), as the list of appended blocks. -/
def mdContent (topic timeText : String) (results : List RunResult) (a : Analysis) :
    List MdBlock :=
  [MdBlock.header1 ("Model Comparison Report: " ++ topic),
   MdBlock.textLine ("Generated at: " ++ timeText),
   MdBlock.header2 "Summary",
   MdBlock.textLine ("- Total configurations tested: " ++ toString a.total_configs),
   MdBlock.textLine ("- Successful runs: " ++ toString a.successful_configs),
   MdBlock.textLine ("- Failed runs: " ++ toString a.failed_configs),
   MdBlock.textLine ("- Average duration: " ++ fmtQ a.average_duration ++ " seconds"),
   MdBlock.header2 "Configuration Results"]
  ++ (results.map mdResultBlocks).flatten
  ++ [MdBlock.header2 "Analysis"]
  ++ mdAnalysisBlocks a

/-- The `## ` section titles of a block list, in order. -/
def h2Titles (bs : List MdBlock) : List String :=
  bs.filterMap (fun b =>
    match b with
    | MdBlock.header2 s => some s
    | _ => none)

/-- The `### ` subsection titles of a block list, in order. -/
def h3Titles (bs : List MdBlock) : List String :=
  bs.filterMap (fun b =>
    match b with
    | MdBlock.header3 s => some s
    | _ => none)

/-!  The `while True:` loop of `InteractiveDemo.run_demo` (lines 415-439).
One loop iteration either completes its body normally (after which the user
is asked whether to conduct another research), raises `KeyboardInterrupt`,
or raises some other exception `e` (after which `str(e)` is printed and the
user is asked whether to continue).  The outcomes of the iterations and the
users' answers are the oracle schedule; the produced events are the
observable behaviour.  The loop of `EvaluationDemo.run_demo`
(lines 374-380) handles `KeyboardInterrupt` and `Exception` identically. -/

/-- Oracle outcome of one iteration of the interactive loop. -/
inductive LoopOutcome where
  | ok (anotherAnswer : Bool)
  | exc (msg : String) (continueAnswer : Bool)
  | kbInterrupt
deriving DecidableEq, Repr

/-- Observable event of the interactive loop. -/
inductive LoopEvent where
  | ranIteration
  | displayedError (msg : String)
  | askedContinue (answer : Bool)
  | askedAnother (answer : Bool)
  | interrupted
deriving DecidableEq, Repr

/-- `InteractiveDemo.run_demo` while-loop: a normal body is followed by the
`Confirm.ask("another research?")` prompt, breaking on a negative answer; a
`KeyboardInterrupt` prints the interruption notice and breaks; any other
exception prints the message, asks `Confirm.ask("continue?")` and breaks on
a negative answer.  The schedule list bounds how many iterations are
observed. -/
def runDemoLoop : List LoopOutcome → List LoopEvent
  | [] => []
  | LoopOutcome.ok ans :: rest =>
      LoopEvent.ranIteration :: LoopEvent.askedAnother ans ::
        (if ans then runDemoLoop rest else [])
  | LoopOutcome.exc msg ans :: rest =>
      LoopEvent.displayedError msg :: LoopEvent.askedContinue ans ::
        (if ans then runDemoLoop rest else [])
  | LoopOutcome.kbInterrupt :: _ => [LoopEvent.interrupted]

/-!  The JSON document written by `save_comparison_results` (lines 342-365).
Python runtime values handed to `json.dump` are modelled by `PyVal`;
`pyObj` stands for an object the default `json.JSONEncoder` cannot encode —
in particular the pydantic `Configuration` instance stored under the
`"config"` key of every result record (the demo calls `config.model_dump()`
when invoking the researcher, so `config` is a pydantic model instance, not
a dict).  `serializable` holds exactly when `json.dump` succeeds. -/

mutual
inductive PyVal where
  | pyStr (s : String)
  | pyNum (q : ℚ)
  | pyBool (b : Bool)
  | pyNone
  | pyList (xs : PyListVal)
  | pyDict (kvs : PyDictVal)
  | pyObj
inductive PyListVal where
  | nil
  | cons (x : PyVal) (xs : PyListVal)
inductive PyDictVal where
  | nil
  | cons (k : String) (v : PyVal) (kvs : PyDictVal)
end

mutual
/-- Whether `json.dump` can encode the value. -/
def serializable : PyVal → Bool
  | PyVal.pyStr _ => true
  | PyVal.pyNum _ => true
  | PyVal.pyBool _ => true
  | PyVal.pyNone => true
  | PyVal.pyList xs => serializableList xs
  | PyVal.pyDict kvs => serializableDict kvs
  | PyVal.pyObj => false
def serializableList : PyListVal → Bool
  | PyListVal.nil => true
  | PyListVal.cons x xs => serializable x && serializableList xs
def serializableDict : PyDictVal → Bool
  | PyDictVal.nil => true
  | PyDictVal.cons _ v kvs => serializable v && serializableDict kvs
end

def PyListVal.ofList : List PyVal → PyListVal
  | [] => PyListVal.nil
  | x :: xs => PyListVal.cons x (PyListVal.ofList xs)

def PyDictVal.ofList : List (String × PyVal) → PyDictVal
  | [] => PyDictVal.nil
  | (k, v) :: kvs => PyDictVal.cons k v (PyDictVal.ofList kvs)

/-- The keys of a dict value, in order. -/
def PyDictVal.keys : PyDictVal → List String
  | PyDictVal.nil => []
  | PyDictVal.cons k _ kvs => k :: PyDictVal.keys kvs

/-- Top-level keys of a value when it is a dict. -/
def topKeys (v : PyVal) : List String :=
  match v with
  | PyVal.pyDict kvs => PyDictVal.keys kvs
  | _ => []

def optStrVal : Option String → PyVal
  | some s => PyVal.pyStr s
  | none => PyVal.pyNone

/-- `len(result["result"]["final_report"]) if result["success"] and
result["result"] and "final_report" in result["result"] else 0`
(line 360). -/
def savedReportLength (r : RunResult) : ℕ :=
  match r.success, finalReportOf r with
  | true, some s => s.length
  | _, _ => 0

/-- The trimmed per-result record placed in `json_data["results"]`
(lines 354-361). -/
def trimmedResultVal (r : RunResult) : PyVal :=
  PyVal.pyDict (PyDictVal.ofList
    [("config_name", PyVal.pyStr r.config_name),
     ("provider", PyVal.pyStr r.provider),
     ("duration", PyVal.pyNum r.duration),
     ("success", PyVal.pyBool r.success),
     ("error", optStrVal r.error),
     ("report_length", PyVal.pyNum (savedReportLength r : ℚ))])

/-- The runtime value of a `deep_researcher` result dict.  Only the
`"final_report"` key is modelled; real result dicts also carry message
objects, so this is a lower bound on non-serializability. -/
def researchResultVal (res : ResearchResult) : PyVal :=
  PyVal.pyDict (PyDictVal.ofList
    (match res.final_report with
     | some s => [("final_report", PyVal.pyStr s)]
     | none => []))

/-- The full result record as stored in the `results` list of
`run_comparison_research` and embedded whole into the analysis dict
(`fastest_config` etc.): its `"config"` entry is the pydantic
`Configuration` instance, which `json.dump` cannot encode. -/
def fullResultVal (r : RunResult) : PyVal :=
  PyVal.pyDict (PyDictVal.ofList
    [("config_name", PyVal.pyStr r.config_name),
     ("provider", PyVal.pyStr r.provider),
     ("config", PyVal.pyObj),
     ("result", match r.result with
       | some res => researchResultVal res
       | none => PyVal.pyNone),
     ("duration", PyVal.pyNum r.duration),
     ("success", PyVal.pyBool r.success),
     ("error", optStrVal r.error)])

def optResultVal : Option RunResult → PyVal
  | some r => fullResultVal r
  | none => PyVal.pyNone

def perfVal (pf : ProviderPerf) : PyVal :=
  PyVal.pyDict (PyDictVal.ofList
    [("average_duration", PyVal.pyNum pf.average_duration),
     ("average_report_length", PyVal.pyNum pf.average_report_length),
     ("success_rate", PyVal.pyNum pf.success_rate)])

/-- The runtime value of the analysis dict of `analyze_results`. -/
def analysisVal (a : Analysis) : PyVal :=
  PyVal.pyDict (PyDictVal.ofList
    [("total_configs", PyVal.pyNum (a.total_configs : ℚ)),
     ("successful_configs", PyVal.pyNum (a.successful_configs : ℚ)),
     ("failed_configs", PyVal.pyNum (a.failed_configs : ℚ)),
     ("average_duration", PyVal.pyNum a.average_duration),
     ("fastest_config", optResultVal a.fastest_config),
     ("slowest_config", optResultVal a.slowest_config),
     ("longest_report", optResultVal a.longest_report),
     ("shortest_report", optResultVal a.shortest_report),
     ("provider_performance",
       PyVal.pyDict (PyDictVal.ofList
         (a.provider_performance.map (fun ps => (ps.1, perfVal ps.2)))))])

/-- `json_data` as built by `save_comparison_results` (lines 346-362) and
passed to `json.dump`. -/
def jsonData (topic : String) (timestamp : ℕ) (results : List RunResult)
    (a : Analysis) : PyVal :=
  PyVal.pyDict (PyDictVal.ofList
    [("topic", PyVal.pyStr topic),
     ("timestamp", PyVal.pyNum (timestamp : ℚ)),
     ("analysis", analysisVal a),
     ("results", PyVal.pyList (PyListVal.ofList (results.map trimmedResultVal)))])

/-!  Concrete sample values used by the witnesses below.  `cfgA` is the
first OpenAI preset of `_get_comparison_configs`. -/

def cfgA : Configuration :=
  { research_model := "openai:gpt-4o",
    final_report_model := "openai:gpt-4o",
    compression_model := "openai:gpt-4o-mini",
    summarization_model := "openai:gpt-4o-mini",
    search_api := SearchAPI.tavily,
    max_researcher_iterations := 3,
    max_concurrent_research_units := 5 }

def infoA : ConfigInfo :=
  { name := "OpenAI GPT-4o (Comprehensive)", provider := "OpenAI", config := cfgA }

def infoB : ConfigInfo :=
  { name := "OpenAI GPT-4o-mini (Fast)", provider := "OpenAI", config := cfgA }

/-- A behaviour where the first call raises and the second returns. -/
def behMix : ℕ → Except String ResearchResult := fun i =>
  if i = 0 then Except.error "API timeout"
  else Except.ok { final_report := some "LLMs raise developer throughput." }

def rOkA : RunResult :=
  { config_name := "OpenAI GPT-4o (Comprehensive)", provider := "OpenAI",
    config := cfgA, result := some { final_report := some "Report body A." },
    duration := 5, success := true, error := none }

def rOkB : RunResult :=
  { config_name := "OpenAI GPT-4o-mini (Fast)", provider := "OpenAI",
    config := cfgA, result := some { final_report := some "Report body B, longer." },
    duration := 3, success := true, error := none }

def rFailG : RunResult :=
  { config_name := "Google Gemini", provider := "Google",
    config := cfgA, result := none, duration := 1, success := false,
    error := some "missing key" }

/-- Claim C1: in `run_comparison_research`, a configuration whose external
research call raises an exception gets a result record with the string form
of the exception in `error`, `success = False` and `result = None`; the loop
still appends exactly one record per configuration and still invokes the
researcher for every configuration, so a failure never prevents later
configurations from running. -/
theorem run_comparison_catches_errors (topic : String) (configs : List ConfigInfo)
    (behavior : ℕ → Except String ResearchResult) (dur : ℕ → ℚ)
    (i : ℕ) (hi : i < configs.length) (e : String)
    (hb : behavior i = Except.error e) :
    (runComparisonResearch topic configs behavior dur).1.length = configs.length ∧
    (runComparisonResearch topic configs behavior dur).1[i]? =
      some { config_name := (configs[i]).name, provider := (configs[i]).provider,
             config := (configs[i]).config, result := none, duration := dur i,
             success := false, error := some e } ∧
    (runComparisonResearch topic configs behavior dur).2 =
      configs.map (fun c => (topic, c.config)) := by
  rw [runComparisonResearch_eq]
  refine ⟨by simp [List.enum_length], ?_, rfl⟩
  rw [List.getElem?_map, List.getElem?_enum, List.getElem?_eq_getElem hi]
  simp [runOne, hb]

theorem run_comparison_catches_errors_witness :
    (0 < [infoA, infoB].length) ∧ behMix 0 = Except.error "API timeout" ∧
    (runComparisonResearch "t" [infoA, infoB] behMix (fun _ => 2)).1[0]? =
      some { config_name := infoA.name, provider := infoA.provider,
             config := infoA.config, result := none, duration := 2,
             success := false, error := some "API timeout" } := by
  have h := run_comparison_catches_errors "t" [infoA, infoB] behMix (fun _ => 2)
    0 (by decide) "API timeout" rfl
  exact ⟨by decide, rfl, h.2.1⟩

/-- Claim C4: the runner invokes the external entry point exactly once per
preset in catalog order, passing the topic, and appends exactly one record
per preset (same order), carrying the measured duration and the
success/failure flag; a failed invocation is never retried. -/
theorem runner_one_record_per_preset (topic : String) (configs : List ConfigInfo)
    (behavior : ℕ → Except String ResearchResult) (dur : ℕ → ℚ) :
    ((runComparisonResearch topic configs behavior dur).2 =
       configs.map (fun c => (topic, c.config))) ∧
    ((runComparisonResearch topic configs behavior dur).1.length = configs.length) ∧
    (∀ i, (hi : i < configs.length) →
      (runComparisonResearch topic configs behavior dur).1[i]? =
        some (runOne behavior dur i (configs[i])) ∧
      (runOne behavior dur i (configs[i])).config_name = (configs[i]).name ∧
      (runOne behavior dur i (configs[i])).provider = (configs[i]).provider ∧
      (runOne behavior dur i (configs[i])).duration = dur i ∧
      (runOne behavior dur i (configs[i])).success = callSucceeded (behavior i)) := by
  rw [runComparisonResearch_eq]
  refine ⟨rfl, by simp [List.enum_length], ?_⟩
  intro i hi
  refine ⟨?_, ?_, ?_, ?_, ?_⟩
  · rw [List.getElem?_map, List.getElem?_enum, List.getElem?_eq_getElem hi]
    rfl
  all_goals cases hb : behavior i <;> simp [runOne, callSucceeded, hb]

theorem runner_one_record_per_preset_witness :
    (1 < [infoA, infoB].length) ∧
    (runComparisonResearch "t" [infoA, infoB] behMix (fun _ => 2)).1[1]? =
      some (runOne behMix (fun _ => 2) 1 infoB) ∧
    (runOne behMix (fun _ => 2) 1 infoB).success = true := by
  have h := (runner_one_record_per_preset "t" [infoA, infoB] behMix
    (fun _ => 2)).2.2 1 (by decide)
  exact ⟨by decide, h.1, by decide⟩

/-- Claim C3: with at least one successful run, `fastest_config` is a
successful result of minimal duration, `slowest_config` one of maximal
duration, and `average_duration` is the sum of the successful durations over
their number; with no successful run, both are `None`. -/
theorem analyze_min_max_avg (results : List RunResult) :
    ((results.filter (fun r => r.success)) ≠ [] →
      (∃ m, (analyzeResults results).fastest_config = some m ∧
        m ∈ results.filter (fun r => r.success) ∧
        ∀ r ∈ results.filter (fun r => r.success), m.duration ≤ r.duration) ∧
      (∃ m, (analyzeResults results).slowest_config = some m ∧
        m ∈ results.filter (fun r => r.success) ∧
        ∀ r ∈ results.filter (fun r => r.success), r.duration ≤ m.duration) ∧
      (analyzeResults results).average_duration =
        ((results.filter (fun r => r.success)).map (fun r => r.duration)).sum /
          (((results.filter (fun r => r.success)).length : ℕ) : ℚ)) ∧
    ((results.filter (fun r => r.success)) = [] →
      (analyzeResults results).fastest_config = none ∧
      (analyzeResults results).slowest_config = none) := by
  constructor
  · intro hne
    refine ⟨?_, ?_, ?_⟩
    · obtain ⟨m, hm⟩ := pyMin_isSome (fun r => r.duration)
        (results.filter (fun r => r.success)) hne
      have hs := pyMin_spec (fun r => r.duration)
        (results.filter (fun r => r.success)) m hm
      exact ⟨m, by rw [analyzeResults_fastest]; exact hm, hs.1, hs.2⟩
    · obtain ⟨m, hm⟩ := pyMax_isSome (fun r => r.duration)
        (results.filter (fun r => r.success)) hne
      have hs := pyMax_spec (fun r => r.duration)
        (results.filter (fun r => r.success)) m hm
      exact ⟨m, by rw [analyzeResults_slowest]; exact hm, hs.1, hs.2⟩
    · rw [analyzeResults_avg]
      have hlen : 1 ≤ (results.filter (fun r => r.success)).length :=
        List.length_pos.mpr hne
      rw [Nat.max_eq_right hlen]
  · intro he
    rw [analyzeResults_fastest, analyzeResults_slowest, he]
    exact ⟨rfl, rfl⟩

theorem analyze_min_max_avg_witness :
    ([rOkA, rOkB, rFailG].filter (fun r => r.success) ≠ []) ∧
    (analyzeResults [rOkA, rOkB, rFailG]).average_duration = 4 := by
  have h := (analyze_min_max_avg [rOkA, rOkB, rFailG]).1 (by decide)
  refine ⟨by decide, ?_⟩
  rw [h.2.2]
  simp only [rOkA, rOkB, rFailG, List.filter_cons, List.filter_nil, List.map_cons,
    List.map_nil, List.sum_cons, List.sum_nil, List.length_cons, List.length_nil]
  norm_num

/-- Claim C9: the divisor of `average_duration` is `max(1, number of
successful runs)`, hence never zero, and with no successful run the average
is 0. -/
theorem analyze_avg_welldefined (results : List RunResult) :
    (0 : ℚ) < ((max 1 (results.filter (fun r => r.success)).length : ℕ) : ℚ) ∧
    (analyzeResults results).average_duration =
      ((results.filter (fun r => r.success)).map (fun r => r.duration)).sum /
        ((max 1 (results.filter (fun r => r.success)).length : ℕ) : ℚ) ∧
    ((results.filter (fun r => r.success)) = [] →
      (analyzeResults results).average_duration = 0) := by
  refine ⟨?_, analyzeResults_avg results, ?_⟩
  · have h : 0 < max 1 (results.filter (fun r => r.success)).length :=
      Nat.lt_of_lt_of_le Nat.one_pos (le_max_left _ _)
    exact_mod_cast h
  · intro he
    rw [analyzeResults_avg, he]
    simp

theorem analyze_avg_welldefined_witness :
    ([rFailG].filter (fun r => r.success) = []) ∧
    (analyzeResults [rFailG]).average_duration = 0 :=
  ⟨by decide, (analyze_avg_welldefined [rFailG]).2.2 (by decide)⟩

/-- Claim C5 as stated is false on the code: `provider_stats` is built from
`successful_results` only, so a provider all of whose runs failed never gets
a `provider_performance` entry.  Here provider `"Google"` occurs in the
results list yet has no entry. -/
theorem provider_performance_counterexample :
    rFailG.provider = "Google" ∧ rFailG ∈ [rFailG] ∧
    (analyzeResults [rFailG]).provider_performance.lookup "Google" = none := by
  decide

/-- Claim C5 (amended): every provider with at least one successful run has
a `provider_performance` entry whose `success_rate` is the number of its
successful runs over the number of all its runs, and whose
`average_duration` is the sum of its successful durations over the number of
its successful runs.  (Providers with no successful run have no entry.) -/
theorem provider_performance_success_rate (results : List RunResult) (p : String)
    (h : ∃ r ∈ results, r.success = true ∧ r.provider = p) :
    ∃ perf, (analyzeResults results).provider_performance.lookup p = some perf ∧
      perf.success_rate =
        ((((results.filter (fun r => r.success)).filter
            (fun r => r.provider = p)).length : ℕ) : ℚ) /
          ((results.filter (fun r => r.provider = p)).length : ℚ) ∧
      perf.average_duration =
        (((results.filter (fun r => r.success)).filter
            (fun r => r.provider = p)).map (fun r => r.duration)).sum /
          ((((results.filter (fun r => r.success)).filter
            (fun r => r.provider = p)).length : ℕ) : ℚ) := by
  obtain ⟨r, hr, hs, hp⟩ := h
  have hmem : r ∈ results.filter (fun x => x.success) :=
    List.mem_filter.mpr ⟨hr, by simp [hs]⟩
  have hmem2 : r ∈ (results.filter (fun x => x.success)).filter
      (fun x => x.provider = p) :=
    List.mem_filter.mpr ⟨hmem, by simp [hp]⟩
  have hne1 : ¬ (results.filter (fun x => x.success)).isEmpty = true := by
    rw [List.isEmpty_iff]
    exact List.ne_nil_of_mem hmem
  have hne2 : (results.filter (fun x => x.success)).filter
      (fun x => x.provider = p) ≠ [] :=
    List.ne_nil_of_mem hmem2
  rw [analyzeResults_perf, if_neg hne1, lookup_map_perf (perfOf results),
    providerStats_lookup, if_neg hne2]
  exact ⟨_, rfl, rfl, rfl⟩

theorem provider_performance_success_rate_witness :
    (∃ r ∈ [rOkA, rOkB, rFailG], r.success = true ∧ r.provider = "OpenAI") ∧
    ∃ perf, (analyzeResults [rOkA, rOkB, rFailG]).provider_performance.lookup
        "OpenAI" = some perf ∧
      perf.success_rate = 1 ∧ perf.average_duration = 4 := by
  obtain ⟨perf, h1, h2, h3⟩ := provider_performance_success_rate
    [rOkA, rOkB, rFailG] "OpenAI" (by decide)
  have e1 : (([rOkA, rOkB, rFailG].filter (fun r => r.success)).filter
      (fun r => r.provider = "OpenAI")) = [rOkA, rOkB] := by
    simp only [rOkA, rOkB, rFailG, List.filter_cons, List.filter_nil]
    norm_num
  have e2 : ([rOkA, rOkB, rFailG].filter
      (fun r => r.provider = "OpenAI")).length = 2 := by decide
  refine ⟨by decide, perf, h1, ?_, ?_⟩
  · rw [h2, e1, e2]
    norm_num
  · rw [h3, e1]
    norm_num [rOkA, rOkB]

/-- Claim C2: the JSON document has exactly the stated top-level fields and
per-result fields, but it is NOT always serializable: as soon as one run
succeeded, `analysis["fastest_config"]` is the whole result record, whose
`"config"` value is the pydantic `Configuration` instance that
`json.dump`'s default encoder rejects with a `TypeError` — despite the
code's own comment "Prepare data for JSON (remove non-serializable parts)".
This theorem evaluates the code at the failing input `[rOkA]`. -/
theorem json_dump_type_error :
    topKeys (jsonData "AI" 0 [rOkA] (analyzeResults [rOkA])) =
      ["topic", "timestamp", "analysis", "results"] ∧
    topKeys (trimmedResultVal rOkA) =
      ["config_name", "provider", "duration", "success", "error",
       "report_length"] ∧
    (analyzeResults [rOkA]).fastest_config = some rOkA ∧
    serializable (jsonData "AI" 0 [rOkA] (analyzeResults [rOkA])) = false := by
  refine ⟨rfl, rfl, by decide, rfl⟩

/-- Claim C6: the mock evaluation returns `comprehensiveness =
min(1, length/1000)`, `source_diversity = min(1, sources/20)`, the three
drawn scores unchanged, and `overall_score` the arithmetic mean of the five
components; the draws come from `[0.7, 0.95]`, `[0.75, 0.92]` and
`[0.8, 0.95]`. -/
theorem evaluate_report_quality_formula (report : Report) (sDraw aDraw cDraw : ℚ)
    (hs1 : (0.7 : ℚ) ≤ sDraw) (hs2 : sDraw ≤ 0.95)
    (ha1 : (0.75 : ℚ) ≤ aDraw) (ha2 : aDraw ≤ 0.92)
    (hc1 : (0.8 : ℚ) ≤ cDraw) (hc2 : cDraw ≤ 0.95) :
    (evaluateReportQuality report sDraw aDraw cDraw).comprehensiveness =
      min 1 ((report.final_report.length : ℚ) / 1000) ∧
    (evaluateReportQuality report sDraw aDraw cDraw).source_diversity =
      min 1 ((report.sources_count : ℚ) / 20) ∧
    (evaluateReportQuality report sDraw aDraw cDraw).structure_quality = sDraw ∧
    (evaluateReportQuality report sDraw aDraw cDraw).accuracy = aDraw ∧
    (evaluateReportQuality report sDraw aDraw cDraw).clarity = cDraw ∧
    (evaluateReportQuality report sDraw aDraw cDraw).overall_score =
      ((evaluateReportQuality report sDraw aDraw cDraw).comprehensiveness +
       (evaluateReportQuality report sDraw aDraw cDraw).source_diversity +
       (evaluateReportQuality report sDraw aDraw cDraw).structure_quality +
       (evaluateReportQuality report sDraw aDraw cDraw).accuracy +
       (evaluateReportQuality report sDraw aDraw cDraw).clarity) / 5 :=
  ⟨rfl, rfl, rfl, rfl, rfl, rfl⟩

theorem evaluate_report_quality_formula_witness :
    ((0.7 : ℚ) ≤ 0.8 ∧ (0.8 : ℚ) ≤ 0.95 ∧ (0.75 : ℚ) ≤ 0.9 ∧ (0.9 : ℚ) ≤ 0.92 ∧
      (0.8 : ℚ) ≤ 0.85 ∧ (0.85 : ℚ) ≤ 0.95) ∧
    (evaluateReportQuality { final_report := "short", sources_count := 10 }
        0.8 0.9 0.85).overall_score =
      ((evaluateReportQuality { final_report := "short", sources_count := 10 }
          0.8 0.9 0.85).comprehensiveness +
       (evaluateReportQuality { final_report := "short", sources_count := 10 }
          0.8 0.9 0.85).source_diversity +
       (evaluateReportQuality { final_report := "short", sources_count := 10 }
          0.8 0.9 0.85).structure_quality +
       (evaluateReportQuality { final_report := "short", sources_count := 10 }
          0.8 0.9 0.85).accuracy +
       (evaluateReportQuality { final_report := "short", sources_count := 10 }
          0.8 0.9 0.85).clarity) / 5 := by
  refine ⟨by norm_num, ?_⟩
  exact (evaluate_report_quality_formula
    { final_report := "short", sources_count := 10 } 0.8 0.9 0.85
    (by norm_num) (by norm_num) (by norm_num) (by norm_num)
    (by norm_num) (by norm_num)).2.2.2.2.2

/-- Claim C10: with a non-negative `sources_count` and draws inside their
`random.uniform` intervals, every returned metric, `overall_score`
included, lies in `[0, 1]`. -/
theorem evaluate_scores_in_unit_interval (report : Report) (sDraw aDraw cDraw : ℚ)
    (hsrc : 0 ≤ report.sources_count)
    (hs1 : (0.7 : ℚ) ≤ sDraw) (hs2 : sDraw ≤ 0.95)
    (ha1 : (0.75 : ℚ) ≤ aDraw) (ha2 : aDraw ≤ 0.92)
    (hc1 : (0.8 : ℚ) ≤ cDraw) (hc2 : cDraw ≤ 0.95) :
    (0 ≤ (evaluateReportQuality report sDraw aDraw cDraw).comprehensiveness ∧
      (evaluateReportQuality report sDraw aDraw cDraw).comprehensiveness ≤ 1) ∧
    (0 ≤ (evaluateReportQuality report sDraw aDraw cDraw).source_diversity ∧
      (evaluateReportQuality report sDraw aDraw cDraw).source_diversity ≤ 1) ∧
    (0 ≤ (evaluateReportQuality report sDraw aDraw cDraw).structure_quality ∧
      (evaluateReportQuality report sDraw aDraw cDraw).structure_quality ≤ 1) ∧
    (0 ≤ (evaluateReportQuality report sDraw aDraw cDraw).accuracy ∧
      (evaluateReportQuality report sDraw aDraw cDraw).accuracy ≤ 1) ∧
    (0 ≤ (evaluateReportQuality report sDraw aDraw cDraw).clarity ∧
      (evaluateReportQuality report sDraw aDraw cDraw).clarity ≤ 1) ∧
    (0 ≤ (evaluateReportQuality report sDraw aDraw cDraw).overall_score ∧
      (evaluateReportQuality report sDraw aDraw cDraw).overall_score ≤ 1) := by
  have hq : (0 : ℚ) ≤ (report.sources_count : ℚ) := by exact_mod_cast hsrc
  have h1 : (0 : ℚ) ≤ min 1 ((report.final_report.length : ℚ) / 1000) :=
    le_min (by norm_num) (by positivity)
  have h2 : min 1 ((report.final_report.length : ℚ) / 1000) ≤ 1 :=
    min_le_left _ _
  have h3 : (0 : ℚ) ≤ min 1 ((report.sources_count : ℚ) / 20) :=
    le_min (by norm_num) (div_nonneg hq (by norm_num))
  have h4 : min 1 ((report.sources_count : ℚ) / 20) ≤ 1 := min_le_left _ _
  simp only [evaluateReportQuality]
  refine ⟨⟨h1, h2⟩, ⟨h3, h4⟩, ⟨by linarith, by linarith⟩,
    ⟨by linarith, by linarith⟩, ⟨by linarith, by linarith⟩,
    ⟨by linarith, by linarith⟩⟩

theorem evaluate_scores_in_unit_interval_witness :
    ((0 : ℤ) ≤ 12 ∧ (0.7 : ℚ) ≤ 0.9 ∧ (0.9 : ℚ) ≤ 0.95 ∧ (0.75 : ℚ) ≤ 0.8 ∧
      (0.8 : ℚ) ≤ 0.92 ∧ (0.8 : ℚ) ≤ 0.9 ∧ (0.9 : ℚ) ≤ 0.95) ∧
    (0 ≤ (evaluateReportQuality { final_report := "r", sources_count := 12 }
        0.9 0.8 0.9).overall_score ∧
      (evaluateReportQuality { final_report := "r", sources_count := 12 }
        0.9 0.8 0.9).overall_score ≤ 1) := by
  refine ⟨by norm_num, ?_⟩
  exact (evaluate_scores_in_unit_interval
    { final_report := "r", sources_count := 12 } 0.9 0.8 0.9
    (by norm_num) (by norm_num) (by norm_num) (by norm_num) (by norm_num)
    (by norm_num) (by norm_num)).2.2.2.2.2

theorem h2Titles_append (bs cs : List MdBlock) :
    h2Titles (bs ++ cs) = h2Titles bs ++ h2Titles cs := by
  simp [h2Titles, List.filterMap_append]

theorem h3Titles_append (bs cs : List MdBlock) :
    h3Titles (bs ++ cs) = h3Titles bs ++ h3Titles cs := by
  simp [h3Titles, List.filterMap_append]

theorem h2Titles_result (r : RunResult) : h2Titles (mdResultBlocks r) = [] := by
  unfold mdResultBlocks
  cases hs : r.success <;> cases hf : finalReportOf r <;>
    simp [h2Titles, List.filterMap_append]

theorem h3Titles_result (r : RunResult) :
    h3Titles (mdResultBlocks r) = [r.config_name] := by
  unfold mdResultBlocks
  cases hs : r.success <;> cases hf : finalReportOf r <;>
    simp [h3Titles, List.filterMap_append]

theorem h2Titles_analysis (a : Analysis) : h2Titles (mdAnalysisBlocks a) = [] := by
  unfold mdAnalysisBlocks
  cases a.fastest_config <;>
    by_cases hp : a.provider_performance = [] <;>
      simp [h2Titles, hp, List.filterMap_append, List.filterMap_map,
        Function.comp]

theorem h3Titles_analysis (a : Analysis) : h3Titles (mdAnalysisBlocks a) = [] := by
  unfold mdAnalysisBlocks
  cases a.fastest_config <;>
    by_cases hp : a.provider_performance = [] <;>
      simp [h3Titles, hp, List.filterMap_append, List.filterMap_map,
        Function.comp]

theorem h2Titles_flatten (results : List RunResult) :
    h2Titles ((results.map mdResultBlocks).flatten) = [] := by
  induction results with
  | nil => rfl
  | cons r rs ih =>
    simp only [List.map_cons, List.flatten_cons, h2Titles_append,
      h2Titles_result, ih, List.nil_append]

theorem h3Titles_flatten (results : List RunResult) :
    h3Titles ((results.map mdResultBlocks).flatten) =
      results.map (fun r => r.config_name) := by
  induction results with
  | nil => rfl
  | cons r rs ih =>
    simp only [List.map_cons, List.flatten_cons, h3Titles_append,
      h3Titles_result, ih, List.singleton_append]

/-- Claim C7: the Markdown document consists of a `## Summary` section
carrying the total, successful and failed counts and the average duration,
then a `## Configuration Results` section with exactly one `###` subsection
per result record in result order, then a final `## Analysis` section (whose
footer contains no further section or subsection headings). -/
theorem md_sections_structure (topic timeText : String)
    (results : List RunResult) (a : Analysis) :
    h2Titles (mdContent topic timeText results a) =
      ["Summary", "Configuration Results", "Analysis"] ∧
    h3Titles (mdContent topic timeText results a) =
      results.map (fun r => r.config_name) ∧
    h3Titles (mdAnalysisBlocks a) = [] ∧
    MdBlock.textLine ("- Total configurations tested: " ++
      toString a.total_configs) ∈ mdContent topic timeText results a ∧
    MdBlock.textLine ("- Successful runs: " ++ toString a.successful_configs) ∈
      mdContent topic timeText results a ∧
    MdBlock.textLine ("- Failed runs: " ++ toString a.failed_configs) ∈
      mdContent topic timeText results a ∧
    MdBlock.textLine ("- Average duration: " ++ fmtQ a.average_duration ++
      " seconds") ∈ mdContent topic timeText results a := by
  refine ⟨?_, ?_, h3Titles_analysis a, ?_, ?_, ?_, ?_⟩
  · unfold mdContent
    rw [h2Titles_append, h2Titles_append, h2Titles_append, h2Titles_flatten,
      h2Titles_analysis]
    rfl
  · unfold mdContent
    rw [h3Titles_append, h3Titles_append, h3Titles_append, h3Titles_flatten,
      h3Titles_analysis]
    simp [h3Titles]
  all_goals
    unfold mdContent
    simp [List.mem_append]

/-- Claim C8: in the interactive loop, an exception other than
`KeyboardInterrupt` is caught, its message displayed, and the user asked
whether to continue — the loop repeats on a positive answer and terminates
on a negative one; a `KeyboardInterrupt` terminates the loop at once,
without the question. -/
theorem loop_error_handling (msg : String) (rest : List LoopOutcome) :
    (runDemoLoop (LoopOutcome.exc msg true :: rest) =
      LoopEvent.displayedError msg :: LoopEvent.askedContinue true ::
        runDemoLoop rest) ∧
    (runDemoLoop (LoopOutcome.exc msg false :: rest) =
      [LoopEvent.displayedError msg, LoopEvent.askedContinue false]) ∧
    (runDemoLoop (LoopOutcome.kbInterrupt :: rest) = [LoopEvent.interrupted]) :=
  ⟨rfl, rfl, rfl⟩

end DeepResearchDemo
